import Mathlib

/-
  Verification development for the snapshot loader and validator
  (netsync/snapshot.go): streaming state loading into a hierarchy of
  store views, block-trio chain validation against a proven validator
  set, and persistence of the resume blocks.

  External collaborators (database backend, trie codec, record codec,
  account codec, signature checks, consensus selection) are modelled
  from the spec, as marked on each definition.  Byte strings are
  abstracted as lists of naturals; hashes as naturals.
-/

namespace ThetaSnapshot

/-- Byte strings, abstracted as lists of naturals. -/
abbrev Bytes := List Nat

/-- Control key byte opening a state view (core.SVStart = 0xF8). -/
def svStartByte : Nat := 248

/-- Control key byte closing a state view (core.SVEnd = 0xF9). -/
def svEndByte : Nat := 249

/-- One snapshot trie record: a pair of byte strings (core.SnapshotTrieRecord). -/
structure SnapshotTrieRecord where
  K : Bytes
  V : Bytes
deriving DecidableEq, Repr

/-- core.Bytestoi: big-endian decoding of a height from a byte string. -/
def bytestoi (bs : Bytes) : Nat := bs.foldl (fun a b => a * 256 + b) 0

/-- Cantor pairing, used to build the model hash functions. -/
def pairN (a b : Nat) : Nat := (a + b) * (a + b + 1) / 2 + b

/-- Injective-style encoding of a byte string into a natural. -/
def encBytes (bs : Bytes) : Nat := bs.foldl (fun a b => a * 300 + b + 1) 1

/-- Encoding of one key/value pair. -/
def encEntry (e : Bytes × Bytes) : Nat := pairN (encBytes e.1) (encBytes e.2)

/-- Modelled from the spec: the root hash a StoreView's Save() returns,
a deterministic function of the sequence of inserted pairs (the real
trie root is deterministic in the resulting map).  Always positive, so
it never collides with the zero root of a fresh view. -/
def trieRoot (contents : List (Bytes × Bytes)) : Nat :=
  contents.foldl (fun a e => pairN a (encEntry e)) 5

/-- Modelled from the spec: an in-memory state-view builder
(state.StoreView), carrying its height and the leaves inserted so far
(most recent first). -/
structure StoreView where
  height : Nat
  contents : List (Bytes × Bytes)
deriving DecidableEq, Repr

/-- A vote: voter id, the block hash voted for, and the (abstracted)
validity of its signature. -/
structure Vote where
  id : Nat
  block : Nat
  sigOk : Bool
deriving DecidableEq, Repr

/-- Highest committed certificate carried by a header: the certified
block hash and the certifying votes. -/
structure HCC where
  blockHash : Nat
  votes : List Vote
deriving DecidableEq, Repr

/-- A block header (core.BlockHeader), with the fields the snapshot
pipeline reads; `extra` stands for the remaining hashed fields. -/
structure BlockHeader where
  height : Nat
  parent : Nat
  hcc : HCC
  stateHash : Nat
  extra : Nat
deriving DecidableEq, Repr

/-- A validator entry: id and stake. -/
structure Validator where
  id : Nat
  stake : Nat
deriving DecidableEq, Repr

abbrev ValidatorSet := List Validator

abbrev VoteSet := List Vote

/-- Modelled from the spec: a Merkle proof object for the
validator-candidate-pool slot (core.VCPProof): the root it certifies,
the key, the value it proves, and whether the proof checks out. -/
structure VCPProof where
  root : Nat
  key : Bytes
  value : Bytes
  valid : Bool
deriving DecidableEq, Repr

/-- First block of a trio: header plus VCP proof. -/
structure SnapshotFirstBlock where
  header : BlockHeader
  proof : VCPProof
deriving DecidableEq, Repr

/-- Second block of a trio: header only. -/
structure SnapshotSecondBlock where
  header : BlockHeader
deriving DecidableEq, Repr

/-- Third block of a trio: header plus its own vote set. -/
structure SnapshotThirdBlock where
  header : BlockHeader
  voteSet : VoteSet
deriving DecidableEq, Repr

/-- A block trio (core.SnapshotBlockTrio). -/
structure BlockTrio where
  first : SnapshotFirstBlock
  second : SnapshotSecondBlock
  third : SnapshotThirdBlock
deriving DecidableEq, Repr

/-- Snapshot metadata: the ordered list of block trios. -/
structure SnapshotMetadata where
  blockTrios : List BlockTrio
deriving DecidableEq, Repr

/-- Block status recorded in an extended block. -/
inductive BlockStatus
  | pending
  | directlyFinalized
deriving DecidableEq, Repr

/-- An extended block record (core.ExtendedBlock) as written by the
tail writer. -/
structure ExtendedBlock where
  header : BlockHeader
  status : BlockStatus
  children : List Nat
  hasValidatorUpdate : Bool
deriving DecidableEq, Repr

/-- Keys of the backing database.  Trie nodes are content-addressed by
root hash, trios use string keys, extended blocks use block-hash keys;
the three spaces do not alias. -/
inductive DBKey
  | trieKey (root : Nat)
  | strKey (s : String)
  | hashKey (h : Nat)
deriving DecidableEq, Repr

/-- Values stored in the backing database. -/
inductive DBVal
  | trieNodes (contents : List (Bytes × Bytes))
  | btrioVal (t : BlockTrio)
  | extBlockVal (e : ExtendedBlock)
deriving DecidableEq, Repr

/-- The backing key/value database, most recent write first. -/
abbrev DB := List (DBKey × DBVal)

/-- Lookup in the database (most recent write wins). -/
def dbFind (db : DB) (k : DBKey) : Option DBVal :=
  (db.find? (fun e => decide (e.1 = k))).map (·.2)

/-- The zero hash of a fresh store view. -/
def zeroHash : Nat := 0

/-- Modelled from the spec: state.NewStoreView reconstructs a view at
the given height from the database at the given root; the zero root
yields a fresh empty view, an unknown root an empty one. -/
def newStoreView (h : Nat) (root : Nat) (db : DB) : StoreView :=
  if root = zeroHash then ⟨h, []⟩
  else match dbFind db (.trieKey root) with
    | some (.trieNodes cs) => ⟨h, cs⟩
    | _ => ⟨h, []⟩

/-- Read a leaf back from a store view (most recent insertion wins). -/
def svGet (sv : StoreView) (k : Bytes) : Option Bytes :=
  (sv.contents.find? (fun e => decide (e.1 = k))).map (·.2)

/-- The ASCII bytes of the account-leaf key marker "ls/a/". -/
def lsAccountTag : Bytes := [108, 115, 47, 97, 47]

/-- Modelled from the spec: the well-known state key of the validator
candidate pool ("ls/vcp"). -/
def vcpStoreKey : Bytes := [108, 115, 47, 118, 99, 112]

/-- Modelled from the spec: the well-known state key of the
stake-transaction height list ("ls/shl"). -/
def shlStoreKey : Bytes := [108, 115, 47, 115, 104, 108]

/-- Whether the first argument is a leading segment of the second. -/
def bytesHasPfx : Bytes → Bytes → Bool
  | [], _ => true
  | _ :: _, [] => false
  | p :: ps, b :: bs => p == b && bytesHasPfx ps bs

/-- An account record, with the storage root its nested view must hash
to; the remaining fields are irrelevant to the loader. -/
structure Account where
  root : Nat
deriving DecidableEq, Repr

/-- Modelled from the spec: the external account codec
(types.FromBytes); the model reads the storage root from the leading
token and fails on an empty value. -/
def decodeAccount : Bytes → Except Unit Account
  | r :: _ => .ok ⟨r⟩
  | [] => .error ()

/-- Causes a vote-set validation can fail with. -/
inductive VoteErr
  | noMajority
  | invalidVote
  | voteWrongBlock
  | voterNotFound
deriving DecidableEq, Repr

/-- Error kinds of the snapshot pipeline.  Constructors named
`...Panic` / `...Deref` stand for Go runtime panics at the
corresponding program points; the rest are returned errors. -/
inductive LoadErr
  | unmatchedEnd
  | heightMismatch
  | storageRootMismatch
  | nilAccountDeref
  | leafOutsideView
  | accountDecodeFailed
  | unclosedView
  | indexPanic
  | nilStoreViewDeref
  | stateHashMismatch
  | badGenesisHeight
  | badGenesisHash
  | badParentLink
  | badHCCLink
  | invalidVotes (c : VoteErr)
  | vcpProofFailed
  | finalValSetMismatch
  | formatBasePanic
deriving DecidableEq, Repr

/-- The loader's mutable state while streaming records: the stack of
open store views, the pending account slot, the last popped view and
last saved root (the Go locals `sv` and `hash`), and the database. -/
structure LoaderState where
  stack : List StoreView
  account : Option Account
  lastQuit : Option StoreView
  lastHash : Nat
  db : DB
deriving DecidableEq, Repr

/-- The SV_START branch of the record loop: push a fresh view at the
decoded height. -/
def startStep (st : LoaderState) (h : Nat) : LoaderState :=
  { st with stack := ⟨h, []⟩ :: st.stack }

/-- The SV_END branch of the record loop: pop the innermost view (an
empty stack is the UnmatchedEnd error), require the decoded height to
match, save the view (writing its nodes under its root), and — when
the enclosing view exists and has the same height — verify the pending
account's storage root, dereferencing the pending account slot as the
source does even when it is empty (`nilAccountDeref` marks that Go
nil-pointer panic).  The pending account slot is cleared. -/
def endStep (st : LoaderState) (h : Nat) : Except LoadErr LoaderState :=
  match st.stack with
  | [] => .error .unmatchedEnd
  | v :: rest =>
    if h ≠ v.height then .error .heightMismatch
    else
      -- sv.Save(): the view's nodes are written under its root hash
      let root := trieRoot v.contents
      let db' : DB := (DBKey.trieKey root, DBVal.trieNodes v.contents) :: st.db
      match rest with
      | w :: _ =>
        if h = w.height then
          -- a storeview for account storage: verify the account root
          match st.account with
          | none => .error .nilAccountDeref
          | some a =>
            if a.root ≠ root then .error .storageRootMismatch
            else .ok ⟨rest, none, some v, root, db'⟩
        else .ok ⟨rest, none, some v, root, db'⟩
      | [] => .ok ⟨rest, none, some v, root, db'⟩

/-- The leaf branch of the record loop: insert the pair into the
innermost view (an empty stack is the LeafOutsideView error); when no
account is pending and the key carries the "ls/a/" marker, decode the
value as the new pending account. -/
def leafStep (st : LoaderState) (k v : Bytes) : Except LoadErr LoaderState :=
  match st.stack with
  | [] => .error .leafOutsideView
  | sv :: rest =>
    let sv' : StoreView := { sv with contents := (k, v) :: sv.contents }
    match st.account with
    | some _ => .ok { st with stack := sv' :: rest }
    | none =>
      if bytesHasPfx lsAccountTag k then
        match decodeAccount v with
        | .error _ => .error .accountDecodeFailed
        | .ok a => .ok { st with stack := sv' :: rest, account := some a }
      else .ok { st with stack := sv' :: rest }

/-- One step of loadState on a single snapshot trie record, mirroring
the body of the record loop in netsync/snapshot.go (loadState): the
record's key selects the SV_START, SV_END or leaf branch. -/
def loadStep (st : LoaderState) (r : SnapshotTrieRecord) : Except LoadErr LoaderState :=
  if r.K = [svStartByte] then .ok (startStep st (bytestoi r.V))
  else if r.K = [svEndByte] then endStep st (bytestoi r.V)
  else leafStep st r.K r.V

/-- The record loop of loadState: consume records until end of file;
at EOF a non-empty stack is the UnclosedView error, otherwise the last
popped view and last saved root are returned with the database. -/
def loadStateAux (st : LoaderState) : List SnapshotTrieRecord → Except LoadErr (Option StoreView × Nat × DB)
  | [] =>
    if st.stack.isEmpty then .ok (st.lastQuit, st.lastHash, st.db)
    else .error .unclosedView
  | r :: rs =>
    match loadStep st r with
    | .error e => .error e
    | .ok st' => loadStateAux st' rs

/-- loadState: stream all records from the (already decoded) snapshot
file into the database, returning the outermost view and its root. -/
def loadState (recs : List SnapshotTrieRecord) (db : DB) : Except LoadErr (Option StoreView × Nat × DB) :=
  loadStateAux ⟨[], none, none, zeroHash, db⟩ recs

/-- Encoding of one vote into the model hash. -/
def encVote (v : Vote) : Nat := pairN (pairN v.id v.block) (if v.sigOk then 1 else 0)

/-- Encoding of a vote list into the model hash. -/
def encVotes (l : List Vote) : Nat := l.foldl (fun a v => pairN a (encVote v)) 3

/-- Modelled from the spec: the external block-header hash
(BlockHeader.Hash()), a deterministic digest of all header fields;
offset by one so it never equals the zero hash. -/
def headerHash (b : BlockHeader) : Nat :=
  pairN (pairN (pairN b.height b.parent) (pairN b.hcc.blockHash (encVotes b.hcc.votes)))
    (pairN b.stateHash b.extra) + 1

/-- Modelled from the spec: Vote.Validate, the signature check over the
vote's canonical encoding, abstracted as the vote's signature flag. -/
def voteValidate (v : Vote) : Bool := v.sigOk

/-- Total stake of a validator set. -/
def totalStake (vs : ValidatorSet) : Nat := vs.foldl (fun a v => a + v.stake) 0

/-- Stake held by the distinct validators of the set that appear among
the voters. -/
def votedStake (vs : ValidatorSet) (votes : VoteSet) : Nat :=
  (vs.filter (fun v => votes.any (fun w => w.id == v.id))).foldl (fun a v => a + v.stake) 0

/-- Modelled from the spec: ValidatorSet.HasMajority — more than
two-thirds of the total stake weight, counted over distinct
validators. -/
def hasMajority (vs : ValidatorSet) (votes : VoteSet) : Bool :=
  2 * totalStake vs < 3 * votedStake vs votes

/-- ValidatorSet.GetValidator: resolve a voter id in the set. -/
def getValidator (vs : ValidatorSet) (i : Nat) : Option Validator :=
  vs.find? (fun v => v.id == i)

/-- Stake-descending, id-ascending precedence between candidates. -/
def candBefore (c d : Validator) : Bool :=
  d.stake < c.stake || (c.stake == d.stake && c.id < d.id)

/-- Ordered insertion for the candidate sort. -/
def insertCand (c : Validator) : List Validator → List Validator
  | [] => [c]
  | d :: ds => if candBefore c d then c :: d :: ds else d :: insertCand c ds

/-- The maximum number of validators elected from the pool. -/
def maxNumValidators : Nat := 31

/-- Modelled from the spec: consensus.SelectTopStakeHoldersAsValidators,
the deterministic pure election (stake-descending, ties broken by id,
capped). -/
def selectTopStakeHolders (pool : List Validator) : ValidatorSet :=
  (pool.foldr insertCand []).take maxNumValidators

/-- Modelled from the spec: decoding of the serialized validator
candidate pool — successive (id, stake) token pairs. -/
def decodePairs : List Nat → List Validator
  | a :: b :: rest => ⟨a, b⟩ :: decodePairs rest
  | _ => []

/-- Read the validator candidate pool out of a store view (absent key
decodes to the empty pool). -/
def getVCPFromView (sv : StoreView) : List Validator :=
  match svGet sv vcpStoreKey with
  | none => []
  | some bs => decodePairs bs

/-- getValidatorSetFromSV: elect the validator set recorded in a view. -/
def getValidatorSetFromSV (sv : StoreView) : ValidatorSet :=
  selectTopStakeHolders (getVCPFromView sv)

/-- Modelled from the spec: the stake-transaction height list accessor
(StoreView.GetStakeTransactionHeightList), decoded from its well-known
key; absent decodes to the empty list. -/
def getStakeTransactionHeightList (sv : StoreView) : List Nat :=
  match svGet sv shlStoreKey with
  | none => []
  | some bs => bs

/-! Genesis configuration of the model.  The source pins genesis by a
compiled-in hash constant; since the header hash is itself modelled,
the model pins genesis by a concrete header (and the world state it
anchors) and derives the hash constant from it. -/

/-- Storage leaf of the model genesis account "u". -/
def uStorageLeaf : SnapshotTrieRecord := ⟨[120], [9]⟩

/-- Root of account "u"'s storage view. -/
def uStorageRoot : Nat := trieRoot [([120], [9])]

/-- Key of the account leaf "ls/a/u". -/
def uAccountKey : Bytes := [108, 115, 47, 97, 47, 117]

/-- Account leaf for "u", declaring its storage root. -/
def uAccountLeaf : SnapshotTrieRecord := ⟨uAccountKey, [uStorageRoot]⟩

/-- Storage leaf of the model genesis account "w". -/
def wStorageLeaf : SnapshotTrieRecord := ⟨[121], [8]⟩

/-- Root of account "w"'s storage view. -/
def wStorageRoot : Nat := trieRoot [([121], [8])]

/-- Key of the account leaf "ls/a/w". -/
def wAccountKey : Bytes := [108, 115, 47, 97, 47, 119]

/-- Account leaf for "w", declaring its storage root. -/
def wAccountLeaf : SnapshotTrieRecord := ⟨wAccountKey, [wStorageRoot]⟩

/-- Validator-candidate-pool leaf: one candidate, id 1 with stake 50. -/
def vcpLeaf : SnapshotTrieRecord := ⟨vcpStoreKey, [1, 50]⟩

/-- SV_START control record at height 0. -/
def startRec0 : SnapshotTrieRecord := ⟨[svStartByte], [0]⟩

/-- SV_END control record at height 0. -/
def endRec0 : SnapshotTrieRecord := ⟨[svEndByte], [0]⟩

/-- Contents of the genesis world-state view after loading (most
recent insertion first). -/
def genesisWorldContents : List (Bytes × Bytes) :=
  [(wAccountKey, [wStorageRoot]), (uAccountKey, [uStorageRoot]), (vcpStoreKey, [1, 50])]

/-- Root hash of the genesis world state. -/
def genesisWorldRoot : Nat := trieRoot genesisWorldContents

/-- GENESIS_HEIGHT: the height of the genesis block. -/
def genesisBlockHeight : Nat := 0

/-- The model's genesis block header, anchoring the genesis world
state. -/
def genesisHeader : BlockHeader := ⟨0, 0, ⟨0, []⟩, genesisWorldRoot, 77⟩

/-- Modelled from the spec: the compiled-in constant identifying the
main network's genesis block, instantiated as the hash of the model
genesis header. -/
def mainnetGenesisBlockHash : Nat := headerHash genesisHeader

/-! The trio-chain validator (checkSnapshot and its helpers). -/

/-- Per-vote checks of validateVotes: signature, block hash match,
voter resolution; the first violation is the error. -/
def checkVotesList (vs : ValidatorSet) (b : BlockHeader) : List Vote → Except VoteErr Unit
  | [] => .ok ()
  | v :: rest =>
    if voteValidate v = false then .error .invalidVote
    else if v.block ≠ headerHash b then .error .voteWrongBlock
    else match getValidator vs v.id with
      | none => .error .voterNotFound
      | some _ => checkVotesList vs b rest

/-- validateVotes: quorum check then per-vote checks, mirroring
netsync/snapshot.go (validateVotes). -/
def validateVotes (vs : ValidatorSet) (b : BlockHeader) (votes : VoteSet) : Except VoteErr Unit :=
  if hasMajority vs votes = false then .error .noMajority
  else checkVotesList vs b votes

/-- Modelled from the spec: trie.VerifyProof, the external Merkle proof
primitive — a proof object certifies one value for one key under one
root. -/
def verifyProof (root : Nat) (key : Bytes) (p : VCPProof) : Except LoadErr Bytes :=
  if p.valid = true ∧ p.root = root ∧ p.key = key then .ok p.value
  else .error .vcpProofFailed

/-- getValidatorSetFromVCPProof: recover the candidate pool proven
under the given state hash and elect the validator set from it. -/
def getValidatorSetFromVCPProof (stateHash : Nat) (p : VCPProof) : Except LoadErr ValidatorSet :=
  match verifyProof stateHash vcpStoreKey p with
  | .error e => .error e
  | .ok bs => .ok (selectTopStakeHolders (decodePairs bs))

/-- validateGenesisBlock: height and hard-coded hash check, then the
genesis validator set is read from the genesis state trie. -/
def validateGenesisBlock (b : BlockHeader) (db : DB) : Except LoadErr ValidatorSet :=
  if b.height ≠ genesisBlockHeight then .error .badGenesisHeight
  else if headerHash b ≠ mainnetGenesisBlockHash then .error .badGenesisHash
  else .ok (getValidatorSetFromSV (newStoreView b.height b.stateHash db))

/-- The per-trio loop of checkSnapshot for the trios after the genesis
trio: parent links, HCC links, votes finalizing Second, then rotation
of the proven set through the VCP proof of First. -/
def chainRest (vs : ValidatorSet) : List BlockTrio → Except LoadErr ValidatorSet
  | [] => .ok vs
  | t :: ts =>
    if t.second.header.parent ≠ headerHash t.first.header
        ∨ t.third.header.parent ≠ headerHash t.second.header then .error .badParentLink
    else if t.second.header.hcc.blockHash ≠ headerHash t.first.header
        ∨ t.third.header.hcc.blockHash ≠ headerHash t.second.header then .error .badHCCLink
    else match validateVotes vs t.second.header t.third.header.hcc.votes with
      | .error c => .error (.invalidVotes c)
      | .ok _ =>
        match getValidatorSetFromVCPProof t.first.header.stateHash t.first.proof with
        | .error e => .error e
        | .ok vs2 => chainRest vs2 ts

/-- The whole trio loop of checkSnapshot: genesis handling for trio 0,
then the rest of the chain; returns the final proven validator set. -/
def checkTrioChain (db : DB) : List BlockTrio → Except LoadErr ValidatorSet
  | [] => .error .indexPanic
  | t :: ts =>
    match validateGenesisBlock t.second.header db with
    | .error e => .error e
    | .ok vs0 => chainRest vs0 ts

/-- checkSnapshot: state-hash check first, then the trio chain, then —
as in the source — the tail trio's own VoteSet is validated with the
result discarded, and finally the proven set is compared with the set
retrieved from the loaded view. -/
def checkSnapshot (svOpt : Option StoreView) (hash : Nat) (meta : SnapshotMetadata) (db : DB) : Except LoadErr Unit :=
  match meta.blockTrios.getLast? with
  | none => .error .indexPanic
  | some tail =>
    if tail.second.header.stateHash ≠ hash then .error .stateHashMismatch
    else
      match checkTrioChain db meta.blockTrios with
      | .error e => .error e
      | .ok proven =>
        -- the return value of this tail-vote validation is discarded,
        -- exactly as in the source (snapshot.go line 235)
        let _tailVoteCheck := validateVotes proven tail.third.header tail.third.voteSet
        match svOpt with
        | none => .error .nilStoreViewDeref
        | some sv =>
          if proven = getValidatorSetFromSV sv then .ok ()
          else .error .finalValSetMismatch

/-! Persistence: the block-trio records and the tail blocks. -/

/-- A kvstore put against the caller's database; `fail` marks the keys
on which the backend reports a write error (the entry is then not
written and the error is returned). -/
def kvPut (fail : DBKey → Bool) (db : DB) (k : DBKey) (v : DBVal) : DB × Option Unit :=
  if fail k then (db, some ()) else ((k, v) :: db, none)

/-- Go's strconv.FormatUint: renders a natural in the given base;
bases outside 2..36 make the Go function panic, modelled as the error
case. -/
def formatUint (v base : Nat) : Except Unit String :=
  if base < 2 ∨ 36 < base then .error ()
  else .ok (String.mk (Nat.toDigits base v))

/-- core.BlockTrioStoreKeyPrefix, the string "btrio/". -/
def blockTrioStoreKeyTag : String := "btrio/"

/-- The block-trio persistence loop of loadSnapshot: every trio except
the last is written under "btrio/" ++ FormatUint(First.Height, 64) —
the base 64 is what the source passes, and it makes FormatUint panic;
the put's own error is discarded as in the source. -/
def persistTrios (fail : DBKey → Bool) (db : DB) : List BlockTrio → Except LoadErr DB
  | [] => .ok db
  | [_] => .ok db
  | t :: rest =>
    match formatUint t.first.header.height 64 with
    | .error _ => .error .formatBasePanic
    | .ok s => persistTrios fail (kvPut fail db (.strKey (blockTrioStoreKeyTag ++ s)) (.btrioVal t)).1 rest

/-- saveTailBlocks: persist the extended blocks of the tail trio (the
First block only above genesis height), discarding the puts' errors as
the source does, and return Second's header. -/
def saveTailBlocks (fail : DBKey → Bool) (meta : SnapshotMetadata) (svOpt : Option StoreView) (db : DB) : Except LoadErr (BlockHeader × DB) :=
  match meta.blockTrios.getLast? with
  | none => .error .indexPanic
  | some tail =>
    match svOpt with
    | none => .error .nilStoreViewDeref
    | some sv =>
      let hl := getStakeTransactionHeightList sv
      let second := tail.second.header
      let db1 :=
        if second.height ≠ genesisBlockHeight then
          (kvPut fail db (.hashKey (headerHash tail.first.header))
            (.extBlockVal ⟨tail.first.header, .directlyFinalized, [headerHash second],
              hl.contains tail.first.header.height⟩)).1
        else db
      let db2 := (kvPut fail db1 (.hashKey (headerHash second))
        (.extBlockVal ⟨second, .directlyFinalized, [], hl.contains second.height⟩)).1
      .ok (second, db2)

/-- loadSnapshot: the orchestrated pipeline on an already decoded
snapshot (metadata plus record stream) — load the state, run the
validity checks, persist the trio records and the tail blocks, return
the resume header together with the final database. -/
def loadSnapshot (fail : DBKey → Bool) (meta : SnapshotMetadata) (recs : List SnapshotTrieRecord) (db : DB) : Except LoadErr (BlockHeader × DB) :=
  match loadState recs db with
  | .error e => .error e
  | .ok (svOpt, hash, db1) =>
    match checkSnapshot svOpt hash meta db1 with
    | .error e => .error e
    | .ok _ =>
      match persistTrios fail db1 meta.blockTrios with
      | .error e => .error e
      | .ok db2 => saveTailBlocks fail meta svOpt db2

/-! A concrete well-formed snapshot (genesis-only tail): the record
stream of the genesis world state with two accounts carrying storage,
and the single-trio metadata anchored at the model genesis.  Used as
witness input throughout. -/

/-- Record stream of the genesis world state. -/
def genesisRecords : List SnapshotTrieRecord :=
  [startRec0, vcpLeaf, uAccountLeaf, startRec0, uStorageLeaf, endRec0,
   wAccountLeaf, startRec0, wStorageLeaf, endRec0, endRec0]

/-- First header of the genesis trio (not inspected for trio 0). -/
def genesisFirstHeader : BlockHeader := ⟨0, 0, ⟨0, []⟩, 0, 1⟩

/-- Third header of the genesis trio. -/
def genesisThirdHeader : BlockHeader := ⟨0, 0, ⟨0, []⟩, 0, 2⟩

/-- A trivial (invalid) VCP proof; never verified on the genesis-only
path. -/
def emptyProof : VCPProof := ⟨0, [], [], false⟩

/-- The genesis block trio; its Third carries an empty VoteSet. -/
def genesisTrio : BlockTrio :=
  ⟨⟨genesisFirstHeader, emptyProof⟩, ⟨genesisHeader⟩, ⟨genesisThirdHeader, []⟩⟩

/-- Metadata of the genesis-only snapshot. -/
def genesisMeta : SnapshotMetadata := ⟨[genesisTrio]⟩

/-- The validator set elected from the genesis candidate pool. -/
def genesisValSet : ValidatorSet := [⟨1, 50⟩]

/-- The outermost view as loadState leaves it on the genesis stream. -/
def genesisSV : StoreView := ⟨0, genesisWorldContents⟩

/-- The database contents loadState produces from an empty database on
the genesis stream. -/
def genesisLoadedDB : DB :=
  [(DBKey.trieKey genesisWorldRoot, DBVal.trieNodes genesisWorldContents),
   (DBKey.trieKey wStorageRoot, DBVal.trieNodes [([121], [8])]),
   (DBKey.trieKey uStorageRoot, DBVal.trieNodes [([120], [9])])]

/-- A put-failure predicate that never fails (the healthy backend). -/
def noFail : DBKey → Bool := fun _ => false

/-- Decidable equality on Except results, for evaluating the pipeline
on concrete inputs. -/
instance {ε α : Type} [DecidableEq ε] [DecidableEq α] : DecidableEq (Except ε α) := fun x y =>
  match x, y with
  | .error a, .error b =>
    if h : a = b then .isTrue (by rw [h]) else .isFalse (by intro c; cases c; exact h rfl)
  | .ok a, .ok b =>
    if h : a = b then .isTrue (by rw [h]) else .isFalse (by intro c; cases c; exact h rfl)
  | .error _, .ok _ => .isFalse (by intro c; cases c)
  | .ok _, .error _ => .isFalse (by intro c; cases c)

/-! Adversarial record streams used by counterexamples. -/

/-- A permutation of the genesis record stream whose SV_START/SV_END
sequence is ill-nested (its control sequence is S S E E E S). -/
def illNestedPerm : List SnapshotTrieRecord :=
  [startRec0, uAccountLeaf, startRec0, endRec0, endRec0, endRec0,
   startRec0, vcpLeaf, uStorageLeaf, wAccountLeaf, wStorageLeaf]

/-- An account leaf ("ls/a/0") whose declared storage root 999 matches
nothing. -/
def staleAccountLeaf : SnapshotTrieRecord := ⟨[108, 115, 47, 97, 47, 48], [999]⟩

/-- An account leaf ("ls/a/1") whose declared storage root is the root
of the storage view containing uStorageLeaf. -/
def freshAccountLeaf : SnapshotTrieRecord := ⟨[108, 115, 47, 97, 47, 49], [uStorageRoot]⟩

/-- Stream with two consecutive account leaves where only the second
(most recent) declares the correct storage root. -/
def secondAccountMatchesStream : List SnapshotTrieRecord :=
  [startRec0, staleAccountLeaf, freshAccountLeaf, startRec0, uStorageLeaf, endRec0, endRec0]

/-- Stream with two consecutive account leaves where only the first
declares the correct storage root. -/
def firstAccountMatchesStream : List SnapshotTrieRecord :=
  [startRec0, freshAccountLeaf, staleAccountLeaf, startRec0, uStorageLeaf, endRec0, endRec0]

/-- A stream opening two same-height views and closing the inner one
without any account leaf in between. -/
def accountlessNestedStream : List SnapshotTrieRecord :=
  [⟨[svStartByte], [5]⟩, ⟨[svStartByte], [5]⟩, ⟨[svEndByte], [5]⟩]

/-! Well-nesting of the control records, and what the loader writes. -/

/-- Classify a record: `some true` for SV_START, `some false` for
SV_END, `none` for a leaf. -/
def ctlOf (r : SnapshotTrieRecord) : Option Bool :=
  if r.K = [svStartByte] then some true
  else if r.K = [svEndByte] then some false
  else none

/-- The start/end control sequence of a record stream. -/
def ctlSeq (rs : List SnapshotTrieRecord) : List Bool := rs.filterMap ctlOf

/-- Balanced-bracket check from an initial depth: no close on depth
zero, and depth zero at the end. -/
def depthOk : Nat → List Bool → Bool
  | d, [] => d == 0
  | d, true :: cs => depthOk (d + 1) cs
  | 0, false :: _ => false
  | d + 1, false :: cs => depthOk d cs

/-- A control sequence is well-nested when it balances from depth 0. -/
def wellNestedCtl (cs : List Bool) : Bool := depthOk 0 cs

/-- Whether a database entry is an extended-block record. -/
def isExtEntry : DBKey × DBVal → Bool
  | (_, .extBlockVal _) => true
  | _ => false

/-- Whether a database entry is a block-trio record. -/
def isBtrioEntry : DBKey × DBVal → Bool
  | (_, .btrioVal _) => true
  | _ => false

/-- Number of extended-block records in the database. -/
def countExtEntries (db : DB) : Nat := (db.filter isExtEntry).length

/-- Number of block-trio records in the database. -/
def countBtrioEntries (db : DB) : Nat := (db.filter isBtrioEntry).length

/-! Shape lemmas about one loader step. -/

lemma endStep_ok_stack (st : LoaderState) (n : Nat) (st' : LoaderState)
    (h : endStep st n = .ok st') : ∃ v, st.stack = v :: st'.stack := by
  obtain ⟨stack, account, lastQuit, lastHash, db⟩ := st
  cases stack with
  | nil => exact absurd h (by simp [endStep])
  | cons v rest =>
    refine ⟨v, ?_⟩
    cases rest with
    | nil =>
      simp only [endStep] at h
      split_ifs at h <;> cases h <;> rfl
    | cons w tail =>
      cases account with
      | none =>
        simp only [endStep] at h
        split_ifs at h <;> cases h <;> rfl
      | some a =>
        simp only [endStep] at h
        split_ifs at h <;> cases h <;> rfl

lemma endStep_ok_db (st : LoaderState) (n : Nat) (st' : LoaderState)
    (h : endStep st n = .ok st') :
    ∃ rt cs, st'.db = (DBKey.trieKey rt, DBVal.trieNodes cs) :: st.db := by
  obtain ⟨stack, account, lastQuit, lastHash, db⟩ := st
  cases stack with
  | nil => exact absurd h (by simp [endStep])
  | cons v rest =>
    refine ⟨trieRoot v.contents, v.contents, ?_⟩
    cases rest with
    | nil =>
      simp only [endStep] at h
      split_ifs at h <;> cases h <;> rfl
    | cons w tail =>
      cases account with
      | none =>
        simp only [endStep] at h
        split_ifs at h <;> cases h <;> rfl
      | some a =>
        simp only [endStep] at h
        split_ifs at h <;> cases h <;> rfl

lemma leafStep_ok_stack (st : LoaderState) (k v : Bytes) (st' : LoaderState)
    (h : leafStep st k v = .ok st') : st'.stack.length = st.stack.length := by
  obtain ⟨stack, account, lastQuit, lastHash, db⟩ := st
  cases stack with
  | nil => exact absurd h (by simp [leafStep])
  | cons sv rest =>
    cases account with
    | some a =>
      simp only [leafStep] at h
      cases h; rfl
    | none =>
      simp only [leafStep] at h
      split_ifs at h
      · cases hd : decodeAccount v with
        | error e => simp only [hd] at h; cases h
        | ok a => simp only [hd] at h; cases h <;> rfl
      · cases h <;> rfl

lemma leafStep_ok_db (st : LoaderState) (k v : Bytes) (st' : LoaderState)
    (h : leafStep st k v = .ok st') : st'.db = st.db := by
  obtain ⟨stack, account, lastQuit, lastHash, db⟩ := st
  cases stack with
  | nil => exact absurd h (by simp [leafStep])
  | cons sv rest =>
    cases account with
    | some a =>
      simp only [leafStep] at h
      cases h; rfl
    | none =>
      simp only [leafStep] at h
      split_ifs at h
      · cases hd : decodeAccount v with
        | error e => simp only [hd] at h; cases h
        | ok a => simp only [hd] at h; cases h <;> rfl
      · cases h <;> rfl

lemma loadStep_ok_db (st : LoaderState) (r : SnapshotTrieRecord) (st' : LoaderState)
    (h : loadStep st r = .ok st') :
    st'.db = st.db ∨ ∃ rt cs, st'.db = (DBKey.trieKey rt, DBVal.trieNodes cs) :: st.db := by
  simp only [loadStep] at h
  split at h
  · cases h; left; rfl
  · split at h
    · exact .inr (endStep_ok_db st (bytestoi r.V) st' h)
    · exact .inl (leafStep_ok_db st r.K r.V st' h)

lemma depthOk_cons_true (d : Nat) (cs : List Bool) :
    depthOk d (true :: cs) = depthOk (d + 1) cs := by
  cases d <;> rfl

lemma depthOk_cons_false (d : Nat) (cs : List Bool) :
    depthOk (d + 1) (false :: cs) = depthOk d cs := by
  cases d <;> rfl

lemma ctlSeq_cons_start (r : SnapshotTrieRecord) (rs : List SnapshotTrieRecord)
    (hk : r.K = [svStartByte]) : ctlSeq (r :: rs) = true :: ctlSeq rs := by
  simp [ctlSeq, ctlOf, hk]

lemma ctlSeq_cons_end (r : SnapshotTrieRecord) (rs : List SnapshotTrieRecord)
    (hk : r.K = [svEndByte]) : ctlSeq (r :: rs) = false :: ctlSeq rs := by
  simp [ctlSeq, ctlOf, hk, svStartByte, svEndByte]

lemma ctlSeq_cons_leaf (r : SnapshotTrieRecord) (rs : List SnapshotTrieRecord)
    (hk1 : r.K ≠ [svStartByte]) (hk2 : r.K ≠ [svEndByte]) : ctlSeq (r :: rs) = ctlSeq rs := by
  simp [ctlSeq, ctlOf, hk1, hk2]

/-- A successful run of the record loop from any state implies that
the control sequence of the remaining records balances from the
current stack depth. -/
lemma loadStateAux_ok_depth : ∀ (rs : List SnapshotTrieRecord) (st : LoaderState)
    (out : Option StoreView × Nat × DB), loadStateAux st rs = .ok out →
    depthOk st.stack.length (ctlSeq rs) = true := by
  intro rs
  induction rs with
  | nil =>
    intro st out h
    simp only [loadStateAux] at h
    by_cases hs : st.stack.isEmpty = true
    · simp [ctlSeq, depthOk, List.length_eq_zero.mpr (List.isEmpty_iff.mp hs)]
    · rw [if_neg hs] at h; cases h
  | cons r rs ih =>
    intro st out h
    simp only [loadStateAux] at h
    cases hstep : loadStep st r with
    | error e => simp only [hstep] at h; cases h
    | ok st' =>
      simp only [hstep] at h
      have hd := ih st' out h
      by_cases hk1 : r.K = [svStartByte]
      · have hss : loadStep st r = .ok (startStep st (bytestoi r.V)) := by
          simp [loadStep, hk1]
        rw [hss] at hstep
        cases hstep
        rw [ctlSeq_cons_start r rs hk1, depthOk_cons_true]
        simpa [startStep] using hd
      · by_cases hk2 : r.K = [svEndByte]
        · have hes : loadStep st r = endStep st (bytestoi r.V) := by
            simp [loadStep, hk1, hk2, svStartByte, svEndByte]
          rw [hes] at hstep
          obtain ⟨v, hv⟩ := endStep_ok_stack st (bytestoi r.V) st' hstep
          rw [ctlSeq_cons_end r rs hk2, hv]
          simpa [depthOk_cons_false] using hd
        · have hls : loadStep st r = leafStep st r.K r.V := by
            simp [loadStep, hk1, hk2]
          rw [hls] at hstep
          have hlen := leafStep_ok_stack st r.K r.V st' hstep
          rw [ctlSeq_cons_leaf r rs hk1 hk2, ← hlen]
          exact hd

lemma countExt_cons_trie (rt : Nat) (cs : List (Bytes × Bytes)) (db : DB) :
    countExtEntries ((DBKey.trieKey rt, DBVal.trieNodes cs) :: db) = countExtEntries db := by
  simp [countExtEntries, List.filter_cons, isExtEntry]

lemma countBtrio_cons_trie (rt : Nat) (cs : List (Bytes × Bytes)) (db : DB) :
    countBtrioEntries ((DBKey.trieKey rt, DBVal.trieNodes cs) :: db) = countBtrioEntries db := by
  simp [countBtrioEntries, List.filter_cons, isBtrioEntry]

/-- The record loop writes only trie nodes: it changes neither the
number of extended-block records nor the number of trio records. -/
lemma loadStateAux_counts : ∀ (rs : List SnapshotTrieRecord) (st : LoaderState)
    (out : Option StoreView × Nat × DB), loadStateAux st rs = .ok out →
    countExtEntries out.2.2 = countExtEntries st.db
      ∧ countBtrioEntries out.2.2 = countBtrioEntries st.db := by
  intro rs
  induction rs with
  | nil =>
    intro st out h
    simp only [loadStateAux] at h
    by_cases hs : st.stack.isEmpty = true
    · rw [if_pos hs] at h; cases h; exact ⟨rfl, rfl⟩
    · rw [if_neg hs] at h; cases h
  | cons r rs ih =>
    intro st out h
    simp only [loadStateAux] at h
    cases hstep : loadStep st r with
    | error e => simp only [hstep] at h; cases h
    | ok st' =>
      simp only [hstep] at h
      have hd := ih st' out h
      rcases loadStep_ok_db st r st' hstep with hdb | ⟨rt, cs, hdb⟩
      · rw [hd.1, hd.2, hdb]; exact ⟨rfl, rfl⟩
      · rw [hd.1, hd.2, hdb, countExt_cons_trie, countBtrio_cons_trie]; exact ⟨rfl, rfl⟩

/-- With at most one trio there is no non-tail trio, so the persist
loop does nothing. -/
lemma persistTrios_short (l : List BlockTrio) (f : DBKey → Bool) (d : DB)
    (h : l.length ≤ 1) : persistTrios f d l = .ok d := by
  cases l with
  | nil => rfl
  | cons t rest =>
    cases rest with
    | nil => rfl
    | cons t2 r2 => simp at h

/-- With at least two trios the persist loop reaches a non-tail trio
and calls FormatUint with base 64, which panics. -/
lemma persistTrios_long (l : List BlockTrio) (f : DBKey → Bool) (d : DB)
    (h : 2 ≤ l.length) : persistTrios f d l = .error .formatBasePanic := by
  cases l with
  | nil => simp at h
  | cons t rest =>
    cases rest with
    | nil => simp at h
    | cons t2 r2 => simp [persistTrios, formatUint]

/-- The header saveTailBlocks returns does not depend on the failure
behaviour of the puts nor on the database contents. -/
lemma saveTailBlocks_map_fst (f1 f2 : DBKey → Bool) (meta : SnapshotMetadata)
    (svOpt : Option StoreView) (d1 d2 : DB) :
    (saveTailBlocks f1 meta svOpt d1).map (fun p => p.1)
      = (saveTailBlocks f2 meta svOpt d2).map (fun p => p.1) := by
  simp only [saveTailBlocks]
  cases hl : meta.blockTrios.getLast? with
  | none => rfl
  | some tail =>
    cases svOpt with
    | none => rfl
    | some sv => rfl

/-- The per-vote loop of validateVotes succeeds exactly when every
vote verifies, names the given block, and resolves to a validator. -/
lemma checkVotesList_ok_iff (vs : ValidatorSet) (b : BlockHeader) :
    ∀ l : List Vote, checkVotesList vs b l = .ok () ↔
      ∀ v ∈ l, voteValidate v = true ∧ v.block = headerHash b
        ∧ (getValidator vs v.id).isSome = true := by
  intro l
  induction l with
  | nil => simp [checkVotesList]
  | cons v rest ih =>
    rw [List.forall_mem_cons]
    simp only [checkVotesList]
    cases hval : voteValidate v with
    | false => simp [hval]
    | true =>
      simp only [hval]
      by_cases hb : v.block = headerHash b
      · cases hg : getValidator vs v.id with
        | none => simp [hb, hg]
        | some val => simp [hb, hg, ih]
      · simp [hb]

/-! Claim theorems. -/

/-- C1: checkSnapshot calls validateVotes on the tail trio's
Third.VoteSet but discards the result, so a failing tail-vote
validation does not fail the snapshot check: on the concrete
genesis-only snapshot, the proven validator set is genesisValSet, the
tail VoteSet fails validation with a no-majority error, and yet
checkSnapshot — and the whole load — succeed.  This contradicts the
claim that any such failure yields an InvalidVotes error. -/
theorem c1_tail_vote_failure_ignored :
    checkTrioChain genesisLoadedDB genesisMeta.blockTrios = .ok genesisValSet
    ∧ validateVotes genesisValSet genesisTrio.third.header genesisTrio.third.voteSet
        = .error .noMajority
    ∧ checkSnapshot (some genesisSV) genesisWorldRoot genesisMeta genesisLoadedDB = .ok ()
    ∧ (loadSnapshot noFail genesisMeta genesisRecords []).map (fun p => p.1)
        = .ok genesisHeader :=
  ⟨by decide, by decide, by decide, by decide⟩

/-- C2: the persist loop of loadSnapshot computes the block-trio key
with FormatUint in base 64; Go's FormatUint panics for every base
above 36, so as soon as a non-tail trio exists (two or more trios) the
loop aborts with that panic instead of writing a decimal "btrio/"
key. -/
theorem c2_btrio_key_base64_panics (fail : DBKey → Bool) (db : DB) (meta : SnapshotMetadata)
    (h : 2 ≤ meta.blockTrios.length) :
    persistTrios fail db meta.blockTrios = .error .formatBasePanic :=
  persistTrios_long meta.blockTrios fail db h

/-- Witness for C2 at a concrete two-trio metadata. -/
theorem c2_btrio_key_base64_panics_witness :
    2 ≤ (SnapshotMetadata.mk [genesisTrio, genesisTrio]).blockTrios.length
    ∧ persistTrios noFail [] (SnapshotMetadata.mk [genesisTrio, genesisTrio]).blockTrios
        = .error .formatBasePanic :=
  ⟨by decide, c2_btrio_key_base64_panics noFail [] ⟨[genesisTrio, genesisTrio]⟩ (by decide)⟩

/-- C3: checkSnapshot compares the loaded root against the tail
Second's StateHash before anything else: whenever they differ the
result is exactly the StateHashMismatch error (whatever the rest of
the metadata holds), success implies they agree, and at the pipeline
level a mismatching load fails with StateHashMismatch. -/
theorem c3_state_hash_checked_first :
    ∀ (svOpt : Option StoreView) (h : Nat) (meta : SnapshotMetadata) (db : DB)
      (tail : BlockTrio), meta.blockTrios.getLast? = some tail →
      ((tail.second.header.stateHash ≠ h →
          checkSnapshot svOpt h meta db = .error .stateHashMismatch)
        ∧ ((checkSnapshot svOpt h meta db).isOk = true → tail.second.header.stateHash = h)
        ∧ (∀ (fail : DBKey → Bool) (recs : List SnapshotTrieRecord) (db0 : DB)
            (sv1 : Option StoreView) (db1 : DB),
            loadState recs db0 = .ok (sv1, h, db1) → tail.second.header.stateHash ≠ h →
            loadSnapshot fail meta recs db0 = .error .stateHashMismatch)) := by
  intro svOpt h meta db tail hlast
  refine ⟨?_, ?_, ?_⟩
  · intro hne
    simp only [checkSnapshot, hlast]
    rw [if_pos hne]
  · intro hok
    by_contra hne
    simp only [checkSnapshot, hlast] at hok
    rw [if_pos hne] at hok
    simp [Except.isOk, Except.toBool] at hok
  · intro fail recs db0 sv1 db1 hload hne
    have hcs : checkSnapshot sv1 h meta db1 = .error .stateHashMismatch := by
      simp only [checkSnapshot, hlast]
      rw [if_pos hne]
    simp only [loadSnapshot, hload, hcs]

/-- Witness for C3: on the genesis snapshot with the loaded root
perturbed by one, checkSnapshot reports exactly StateHashMismatch. -/
theorem c3_state_hash_checked_first_witness :
    genesisMeta.blockTrios.getLast? = some genesisTrio
    ∧ checkSnapshot (some genesisSV) (genesisWorldRoot + 1) genesisMeta genesisLoadedDB
        = .error .stateHashMismatch :=
  ⟨by decide,
    (c3_state_hash_checked_first (some genesisSV) (genesisWorldRoot + 1) genesisMeta
      genesisLoadedDB genesisTrio (by decide)).1 (by decide)⟩

/-- C4: validateVotes succeeds exactly when the validator set has a
stake majority among the voters and every vote individually verifies,
names the given block's hash, and resolves to a validator in the set;
any violation yields an error. -/
theorem c4_validateVotes_iff (vs : ValidatorSet) (b : BlockHeader) (votes : VoteSet) :
    validateVotes vs b votes = .ok () ↔
      (hasMajority vs votes = true
        ∧ ∀ v ∈ votes, voteValidate v = true ∧ v.block = headerHash b
            ∧ (getValidator vs v.id).isSome = true) := by
  simp only [validateVotes]
  cases hm : hasMajority vs votes with
  | false => simp [hm]
  | true => simp [hm, checkVotesList_ok_iff]

/-- Witness for C4: a quorum of one valid vote for the block passes. -/
theorem c4_validateVotes_iff_witness :
    validateVotes genesisValSet genesisThirdHeader
      [⟨1, headerHash genesisThirdHeader, true⟩] = .ok () :=
  (c4_validateVotes_iff genesisValSet genesisThirdHeader
      [⟨1, headerHash genesisThirdHeader, true⟩]).mpr ⟨by decide, by decide⟩

/-- C5 counterexample: in this stream the most recent ls/a/ leaf
before the storage scope declares exactly the storage view's root
(while an earlier leaf in the same scope declares a wrong one), yet
loadState fails with StorageRootMismatch — so the storage-root check
does not compare against the most recent account leaf. -/
theorem c5_counterexample :
    loadState secondAccountMatchesStream [] = .error .storageRootMismatch
    ∧ decodeAccount freshAccountLeaf.V = .ok ⟨trieRoot [(uStorageLeaf.K, uStorageLeaf.V)]⟩
    ∧ decodeAccount staleAccountLeaf.V = .ok ⟨999⟩
    ∧ (999 : Nat) ≠ trieRoot [(uStorageLeaf.K, uStorageLeaf.V)] :=
  ⟨by decide, by decide, by decide, by decide⟩

/-- C5 (amended): when an SV_END closes a view while the stack stays
non-empty and the enclosing view has the same height, the closed
view's saved root is compared against the Root of the pending account
(the one decoded from the first ls/a/ leaf since the last SV_END): a
difference fails loadState with StorageRootMismatch, and on success
the pending-account slot is cleared. -/
theorem c5_storage_close_checks_pending_account :
    ∀ (st : LoaderState) (v w : StoreView) (rest : List StoreView) (a : Account) (vb : Bytes),
      st.stack = v :: w :: rest → st.account = some a → bytestoi vb = v.height →
      w.height = v.height →
      ((a.root ≠ trieRoot v.contents →
          loadStep st ⟨[svEndByte], vb⟩ = .error .storageRootMismatch)
        ∧ (a.root = trieRoot v.contents →
          loadStep st ⟨[svEndByte], vb⟩ =
            .ok ⟨w :: rest, none, some v, trieRoot v.contents,
              (DBKey.trieKey (trieRoot v.contents), DBVal.trieNodes v.contents) :: st.db⟩)) := by
  intro st v w rest a vb hs ha hv hw
  obtain ⟨stack, account, lastQuit, lastHash, db⟩ := st
  have hs' : stack = v :: w :: rest := hs
  have ha' : account = some a := ha
  subst hs' ha'
  constructor
  · intro hroot
    show endStep ⟨v :: w :: rest, some a, lastQuit, lastHash, db⟩ (bytestoi vb) = _
    simp only [endStep]
    rw [hv, hw, if_neg (not_not_intro rfl), if_pos rfl, if_pos hroot]
  · intro hroot
    show endStep ⟨v :: w :: rest, some a, lastQuit, lastHash, db⟩ (bytestoi vb) = _
    simp only [endStep]
    rw [hv, hw, if_neg (not_not_intro rfl), if_pos rfl, if_neg (not_not_intro hroot)]

/-- Witness for C5 at a concrete same-height close with a mismatching
pending account. -/
theorem c5_storage_close_checks_pending_account_witness :
    (7 : Nat) ≠ trieRoot [([1], [2])]
    ∧ loadStep ⟨[⟨3, [([1], [2])]⟩, ⟨3, []⟩], some ⟨7⟩, none, 0, []⟩ ⟨[svEndByte], [3]⟩
        = .error .storageRootMismatch :=
  ⟨by decide,
    (c5_storage_close_checks_pending_account
      ⟨[⟨3, [([1], [2])]⟩, ⟨3, []⟩], some ⟨7⟩, none, 0, []⟩
      ⟨3, [([1], [2])]⟩ ⟨3, []⟩ [] ⟨7⟩ [3] rfl rfl (by decide) rfl).1 (by decide)⟩

/-- C6 counterexample: the genesis-only snapshot loads successfully
end to end; the stream illNestedPerm is a permutation of its records
whose SV_START/SV_END sequence is ill-nested, and loading it fails
with StorageRootMismatch — an error kind that is neither UnmatchedEnd
nor UnclosedView. -/
theorem c6_counterexample :
    (loadSnapshot noFail genesisMeta genesisRecords []).isOk = true
    ∧ List.Perm genesisRecords illNestedPerm
    ∧ wellNestedCtl (ctlSeq illNestedPerm) = false
    ∧ loadState illNestedPerm [] = .error .storageRootMismatch
    ∧ LoadErr.storageRootMismatch ≠ .unmatchedEnd
    ∧ LoadErr.storageRootMismatch ≠ .unclosedView :=
  ⟨by decide, by decide, by decide, by decide, by decide, by decide⟩

/-- C6 (amended): whenever the control sequence of a record stream is
ill-nested, loadState fails — though not necessarily with UnmatchedEnd
or UnclosedView, since another loader error can fire first. -/
theorem c6_ill_nested_load_fails (recs : List SnapshotTrieRecord) (db : DB)
    (h : wellNestedCtl (ctlSeq recs) = false) : (loadState recs db).isOk = false := by
  cases hr : loadState recs db with
  | error e => rfl
  | ok out =>
    have hr' : loadStateAux ⟨[], none, none, zeroHash, db⟩ recs = .ok out := hr
    have hd := loadStateAux_ok_depth recs ⟨[], none, none, zeroHash, db⟩ out hr'
    have h2 : wellNestedCtl (ctlSeq recs) = true := by
      simpa [wellNestedCtl] using hd
    rw [h2] at h
    cases h

/-- Witness for C6 on a stream consisting of one unmatched SV_END. -/
theorem c6_ill_nested_load_fails_witness :
    wellNestedCtl (ctlSeq [endRec0]) = false ∧ (loadState [endRec0] []).isOk = false :=
  ⟨by decide, c6_ill_nested_load_fails [endRec0] [] (by decide)⟩

/-- C7 counterexample: after a second ls/a/ leaf arrives with no
intervening scope record, the pending account is still the one decoded
from the first leaf (root = the storage root), not the newly decoded
one (root 999); consequently a whole stream whose first account leaf
matches the storage root loads successfully even though its most
recent account leaf does not match. -/
theorem c7_counterexample :
    ((loadStep ⟨[⟨0, []⟩], none, none, zeroHash, []⟩ freshAccountLeaf).bind
        (fun s1 => loadStep s1 staleAccountLeaf)).map (fun s => s.account)
      = .ok (some ⟨uStorageRoot⟩)
    ∧ decodeAccount staleAccountLeaf.V = .ok ⟨999⟩
    ∧ (999 : Nat) ≠ uStorageRoot
    ∧ (loadState firstAccountMatchesStream []).isOk = true :=
  ⟨by decide, by decide, by decide, by decide⟩

/-- C7 (amended): a leaf record processed while an account is already
pending inserts the pair into the top view and keeps the pending
account unchanged — a second ls/a/ leaf with no intervening SV_START
or SV_END does not overwrite it. -/
theorem c7_second_account_leaf_kept :
    ∀ (st : LoaderState) (a : Account) (k vb : Bytes) (sv : StoreView) (rest : List StoreView),
      st.stack = sv :: rest → st.account = some a →
      k ≠ [svStartByte] → k ≠ [svEndByte] →
      loadStep st ⟨k, vb⟩ =
        .ok ⟨{ sv with contents := (k, vb) :: sv.contents } :: rest, some a,
          st.lastQuit, st.lastHash, st.db⟩ := by
  intro st a k vb sv rest hs ha hk1 hk2
  simp only [loadStep]
  rw [if_neg hk1, if_neg hk2]
  simp only [leafStep, hs, ha]

/-- Witness for C7: a leaf arriving while account ⟨4⟩ is pending
leaves the pending account at ⟨4⟩. -/
theorem c7_second_account_leaf_kept_witness :
    loadStep ⟨[⟨0, []⟩], some ⟨4⟩, none, 0, []⟩ ⟨[9], [1]⟩
      = .ok ⟨[⟨0, [([9], [1])]⟩], some ⟨4⟩, none, 0, []⟩ :=
  c7_second_account_leaf_kept ⟨[⟨0, []⟩], some ⟨4⟩, none, 0, []⟩ ⟨4⟩ [9] [1] ⟨0, []⟩ []
    rfl rfl (by decide) (by decide)

/-- C8: for a valid snapshot whose metadata is a single trio with
Second at the genesis height and Second's hash equal to the hard-coded
genesis hash, loadSnapshot succeeds, returns Second's header, writes
no block-trio record, and writes exactly one extended block — the one
for Second, DirectlyFinalized with no children, under Second's hash
key. -/
theorem c8_genesis_only_tail :
    ∀ (t : BlockTrio) (recs : List SnapshotTrieRecord) (db0 : DB) (sv : StoreView)
      (h1 : Nat) (db1 : DB),
      t.second.header.height = genesisBlockHeight →
      headerHash t.second.header = mainnetGenesisBlockHash →
      loadState recs db0 = .ok (some sv, h1, db1) →
      (checkSnapshot (some sv) h1 ⟨[t]⟩ db1).isOk = true →
      countExtEntries db0 = 0 → countBtrioEntries db0 = 0 →
      loadSnapshot noFail ⟨[t]⟩ recs db0 =
        .ok (t.second.header,
          (DBKey.hashKey (headerHash t.second.header),
            DBVal.extBlockVal ⟨t.second.header, .directlyFinalized, [],
              (getStakeTransactionHeightList sv).contains t.second.header.height⟩) :: db1)
      ∧ countExtEntries
          ((DBKey.hashKey (headerHash t.second.header),
            DBVal.extBlockVal ⟨t.second.header, .directlyFinalized, [],
              (getStakeTransactionHeightList sv).contains t.second.header.height⟩) :: db1) = 1
      ∧ countBtrioEntries
          ((DBKey.hashKey (headerHash t.second.header),
            DBVal.extBlockVal ⟨t.second.header, .directlyFinalized, [],
              (getStakeTransactionHeightList sv).contains t.second.header.height⟩) :: db1) = 0 := by
  intro t recs db0 sv h1 db1 hheight hghash hload hok hext hbtrio
  have hload' : loadStateAux ⟨[], none, none, zeroHash, db0⟩ recs = .ok (some sv, h1, db1) :=
    hload
  have hcounts := loadStateAux_counts recs ⟨[], none, none, zeroHash, db0⟩
    (some sv, h1, db1) hload'
  have hchk : checkSnapshot (some sv) h1 ⟨[t]⟩ db1 = .ok () := by
    cases hc : checkSnapshot (some sv) h1 ⟨[t]⟩ db1 with
    | ok u => cases u; rfl
    | error e => rw [hc] at hok; simp [Except.isOk, Except.toBool] at hok
  have hsave : saveTailBlocks noFail ⟨[t]⟩ (some sv) db1 =
      .ok (t.second.header,
        (DBKey.hashKey (headerHash t.second.header),
          DBVal.extBlockVal ⟨t.second.header, .directlyFinalized, [],
            (getStakeTransactionHeightList sv).contains t.second.header.height⟩) :: db1) := by
    have hl : (SnapshotMetadata.mk [t]).blockTrios.getLast? = some t := rfl
    simp only [saveTailBlocks, hl]
    rw [if_neg (not_not_intro hheight)]
    simp [kvPut, noFail]
  refine ⟨?_, ?_, ?_⟩
  · have hpers : persistTrios noFail db1 (SnapshotMetadata.mk [t]).blockTrios = .ok db1 := rfl
    simp only [loadSnapshot, hload, hchk, hpers]
    exact hsave
  · have h1e : countExtEntries db1 = 0 := hcounts.1.trans hext
    simp only [countExtEntries, List.filter_cons] at h1e ⊢
    simp [isExtEntry, h1e]
  · have h1b : countBtrioEntries db1 = 0 := hcounts.2.trans hbtrio
    simp only [countBtrioEntries, List.filter_cons] at h1b ⊢
    simp [isBtrioEntry, h1b]

/-- Witness for C8: the concrete genesis-only snapshot. -/
theorem c8_genesis_only_tail_witness :
    loadSnapshot noFail genesisMeta genesisRecords [] =
      .ok (genesisTrio.second.header,
        (DBKey.hashKey (headerHash genesisTrio.second.header),
          DBVal.extBlockVal ⟨genesisTrio.second.header, .directlyFinalized, [],
            (getStakeTransactionHeightList genesisSV).contains
              genesisTrio.second.header.height⟩) :: genesisLoadedDB)
    ∧ countExtEntries
        ((DBKey.hashKey (headerHash genesisTrio.second.header),
          DBVal.extBlockVal ⟨genesisTrio.second.header, .directlyFinalized, [],
            (getStakeTransactionHeightList genesisSV).contains
              genesisTrio.second.header.height⟩) :: genesisLoadedDB) = 1
    ∧ countBtrioEntries
        ((DBKey.hashKey (headerHash genesisTrio.second.header),
          DBVal.extBlockVal ⟨genesisTrio.second.header, .directlyFinalized, [],
            (getStakeTransactionHeightList genesisSV).contains
              genesisTrio.second.header.height⟩) :: genesisLoadedDB) = 0 :=
  c8_genesis_only_tail genesisTrio genesisRecords [] genesisSV genesisWorldRoot
    genesisLoadedDB (by decide) (by decide) (by decide) (by decide) (by decide) (by decide)

/-- C9 counterexample: with a backend that fails the put of the tail
extended block, loadSnapshot still succeeds and returns the resume
header, while the extended block is absent from the final database —
the put's error was silently discarded. -/
theorem c9_counterexample :
    loadSnapshot (fun k => decide (k = DBKey.hashKey (headerHash genesisHeader)))
        genesisMeta genesisRecords [] = .ok (genesisHeader, genesisLoadedDB)
    ∧ dbFind genesisLoadedDB (DBKey.hashKey (headerHash genesisHeader)) = none :=
  ⟨by decide, by decide⟩

/-- C9 (amended): the errors of the database writes performed by the
persist loop and the tail writer are discarded, so the outcome of
loadSnapshot — success or failure, and the returned header — is the
same whatever puts the backend fails. -/
theorem c9_put_failures_ignored (fail : DBKey → Bool) (meta : SnapshotMetadata)
    (recs : List SnapshotTrieRecord) (db : DB) :
    (loadSnapshot fail meta recs db).map (fun p => p.1)
      = (loadSnapshot noFail meta recs db).map (fun p => p.1) := by
  simp only [loadSnapshot]
  cases hload : loadState recs db with
  | error e => rfl
  | ok out =>
    obtain ⟨svOpt, h1, db1⟩ := out
    cases hchk : checkSnapshot svOpt h1 meta db1 with
    | error e => simp only [hchk]
    | ok u =>
      simp only [hchk]
      by_cases hlen : meta.blockTrios.length ≤ 1
      · simp only [persistTrios_short meta.blockTrios fail db1 hlen,
          persistTrios_short meta.blockTrios noFail db1 hlen]
        exact saveTailBlocks_map_fst fail noFail meta svOpt db1 db1
      · simp only [persistTrios_long meta.blockTrios fail db1 (by omega),
          persistTrios_long meta.blockTrios noFail db1 (by omega)]

/-- C10: on a stream that opens two same-height views and closes the
inner one with no ls/a/ account leaf in between, the loader reaches
the storage-root comparison with an empty pending-account slot and
dereferences it — the Go code panics on a nil pointer instead of
returning an error, refuting the claimed totality. -/
theorem c10_nil_account_panic :
    loadState accountlessNestedStream [] = .error .nilAccountDeref := by decide

end ThetaSnapshot
